import Mathlib

/-!
Verification development for the wahoo-systm-mcp repository.

This file gives a shallow embedding of the WahooClient (authentication,
session, GraphQL request issuing, and the library filter/sort/limit
engine) and of the zod response-normalization schemas, translated from
the TypeScript source, and proves the specification claims about them.

Conventions of the embedding:
- JavaScript numbers appearing in the claims (durations in seconds,
  caller-facing minute bounds, TSS, 4DP ratings, page numbers, ranks)
  are modeled as Int; every claim is order-theoretic or equational, so
  no floating-point behavior is involved.
- TypeScript optional fields and nullable values that the code guards
  with optional chaining are modeled as Option.
- JavaScript truthiness tests on strings (empty string is falsy) and on
  numbers (zero is falsy) are modeled explicitly at each use site.
- String.prototype.localeCompare is locale dependent; the engine is
  parametric in a comparison function lc so that theorems hold for
  every locale. Concrete witnesses use localeCompareModel below.
- Array.prototype.sort is a stable sort; it is modeled by List.mergeSort
  with the comparator translated to a boolean le relation.
-/

/-- The 4DP ratings block carried in metrics (nm, ac, map, ftp), each an
integer severity. From the ratings object of the LibraryContent and
WorkoutDetails interfaces. -/
structure Ratings where
  nm : Int
  ac : Int
  map : Int
  ftp : Int
deriving DecidableEq

/-- The metrics block of a library item: tss, intensityFactor and the
4DP ratings are all optional in the upstream payload. -/
structure Metrics where
  tss : Option Int
  intensityFactor : Option Int
  ratings : Option Ratings
deriving DecidableEq

/-- A workout-library catalog entry, as the client engine accesses it.
Fields the client reads through optional chaining (channel, workoutType,
category, level, intensity, metrics) are Option; name and duration are
accessed directly and are required. Fields the engine never reads
(mediaType, images, videoId, tags, descriptions) are omitted from the
embedding because no claim mentions them and the filter/sort code never
touches them. -/
structure LibraryContent where
  id : String
  name : String
  channel : Option String
  workoutType : Option String
  category : Option String
  level : Option String
  duration : Int
  workoutId : String
  intensity : Option String
  metrics : Option Metrics
deriving DecidableEq

/-- Sort keys accepted by getWorkoutLibrary. -/
inductive SortKey where
  | name
  | duration
  | tss
  | level
deriving DecidableEq

/-- Sort keys accepted by getCyclingWorkouts (no level key on this path). -/
inductive CycSortKey where
  | name
  | duration
  | tss
deriving DecidableEq

/-- Injection of the cycling sort keys into the generic ones, used when
getCyclingWorkouts forwards sortBy to getWorkoutLibrary. -/
def CycSortKey.toSortKey : CycSortKey → SortKey
  | .name => .name
  | .duration => .duration
  | .tss => .tss

/-- Sort directions. -/
inductive SortDir where
  | asc
  | desc
deriving DecidableEq

/-- The 4DP focus energy systems accepted by getCyclingWorkouts. -/
inductive FourDp where
  | nm
  | ac
  | map
  | ftp
deriving DecidableEq

/-- The filters argument of getWorkoutLibrary. -/
structure LibraryFilters where
  sport : Option String := none
  channel : Option String := none
  level : Option String := none
  minDuration : Option Int := none
  maxDuration : Option Int := none
  minTss : Option Int := none
  maxTss : Option Int := none
  sortBy : Option SortKey := none
  sortDirection : Option SortDir := none
deriving DecidableEq

/-- The filters argument of getCyclingWorkouts (current client, which
also accepts a limit). -/
structure CyclingFilters where
  channel : Option String := none
  category : Option String := none
  fourDpFocus : Option FourDp := none
  minDuration : Option Int := none
  maxDuration : Option Int := none
  minTss : Option Int := none
  maxTss : Option Int := none
  intensity : Option String := none
  sortBy : Option CycSortKey := none
  sortDirection : Option SortDir := none
  limit : Option Int := none
deriving DecidableEq

/-- Lowercasing a string character by character, standing in for
String.prototype.toLowerCase (identical on the ASCII data involved).
Implemented on the character list so that concrete witnesses evaluate
inside the kernel. -/
def strToLower (s : String) : String :=
  String.mk (s.data.map Char.toLower)

/-- Model of item.field?.toLowerCase() === suppliedValue.toLowerCase():
an absent field compares unequal to any supplied string. -/
def optEqCI (field : Option String) (supplied : String) : Bool :=
  match field with
  | some s => strToLower s == strToLower supplied
  | none => false

/-- Whether the character list n occurs at the start of h. -/
def charsStartWith : List Char → List Char → Bool
  | [], _ => true
  | _ :: _, [] => false
  | a :: ns, b :: hs => a == b && charsStartWith ns hs

/-- Whether the character list n occurs contiguously anywhere in h
(the semantics of String.prototype.includes on the underlying
character sequences). -/
def charsContain (n : List Char) : List Char → Bool
  | [] => charsStartWith n []
  | b :: hs => charsStartWith n (b :: hs) || charsContain n hs

/-- Model of haystack.includes(needle) for strings. -/
def strIncludes (haystack needle : String) : Bool :=
  charsContain needle.data haystack.data

/-- Model of w.channel?.toLowerCase().includes(supplied.toLowerCase()):
an absent channel never matches. -/
def optSubstrCI (field : Option String) (supplied : String) : Bool :=
  match field with
  | some s => strIncludes (strToLower s) (strToLower supplied)
  | none => false

/-- Model of (item.metrics?.tss ?? 0): the TSS value used by the
filter and sort stages, with 0 substituted for a missing metrics block
or a missing tss field. -/
def tssOf (item : LibraryContent) : Int :=
  ((item.metrics.bind Metrics.tss).getD 0)

/-- The fixed ordinal map used by the level sort key:
basic 1, intermediate 2, advanced 3, anything else (including a missing
level) 0. From the levelOrder record in the sort comparator. -/
def levelOrder (level : Option String) : Int :=
  match level with
  | some s =>
    if strToLower s == "basic" then 1
    else if strToLower s == "intermediate" then 2
    else if strToLower s == "advanced" then 3
    else 0
  | none => 0

/-- The sign multiplier applied to the comparator:
1 for ascending and -1 for descending. -/
def dirMultiplier : SortDir → Int
  | .asc => 1
  | .desc => -1

/-- The compareValue computed inside the sort comparator for the active
key, before the direction multiplier is applied. lc models
String.prototype.localeCompare. -/
def compareValue (lc : String → String → Int) (key : SortKey)
    (a b : LibraryContent) : Int :=
  match key with
  | .name => lc a.name b.name
  | .duration => a.duration - b.duration
  | .tss => tssOf a - tssOf b
  | .level => levelOrder a.level - levelOrder b.level

/-- The boolean ordering relation equivalent to the JS comparator
returning compareValue * multiplier: a sorts no later than b when the
signed comparator value is nonpositive. -/
def sortLe (lc : String → String → Int) (key : SortKey) (dir : SortDir)
    (a b : LibraryContent) : Bool :=
  decide (compareValue lc key a b * dirMultiplier dir ≤ 0)

/-- The sort stage of getWorkoutLibrary: a stable sort by the active
key (defaulting to name) and direction (defaulting to asc). -/
def sortContent (lc : String → String → Int) (sortBy : Option SortKey)
    (sortDirection : Option SortDir) (content : List LibraryContent) :
    List LibraryContent :=
  content.mergeSort (sortLe lc (sortBy.getD .name) (sortDirection.getD .asc))

/-- Model of the pattern `if (filters.x) content = content.filter(...)`
for a string-valued filter: JavaScript truthiness skips the filter when
the value is absent or the empty string. -/
def filterIfTruthy (value : Option String)
    (p : String → LibraryContent → Bool) (l : List LibraryContent) :
    List LibraryContent :=
  match value with
  | some s => if s = "" then l else l.filter (p s)
  | none => l

/-- Model of the pattern
`if (filters.x !== undefined) content = content.filter(...)` for a
numeric bound: the filter applies whenever the bound is present. -/
def filterIfDefined (value : Option Int)
    (p : Int → LibraryContent → Bool) (l : List LibraryContent) :
    List LibraryContent :=
  match value with
  | some n => l.filter (p n)
  | none => l

/-- The filter stage of getWorkoutLibrary. The two variants of the
client differ only in durationUnit, the factor applied to the
caller-provided duration bounds before comparing against the duration
field (in seconds): 60 in the current client and 3600 in the historical
variant. All other predicates are identical: case-insensitive equality
for sport (against workoutType), channel and level, and inclusive
bounds for duration and TSS, with TSS read as 0 when missing. -/
def applyLibraryFiltersWith (durationUnit : Int)
    (filters : Option LibraryFilters) (content : List LibraryContent) :
    List LibraryContent :=
  match filters with
  | none => content
  | some f =>
    let c1 := filterIfTruthy f.sport (fun s item => optEqCI item.workoutType s) content
    let c2 := filterIfTruthy f.channel (fun s item => optEqCI item.channel s) c1
    let c3 := filterIfTruthy f.level (fun s item => optEqCI item.level s) c2
    let c4 := filterIfDefined f.minDuration
      (fun m item => decide (m * durationUnit ≤ item.duration)) c3
    let c5 := filterIfDefined f.maxDuration
      (fun m item => decide (item.duration ≤ m * durationUnit)) c4
    let c6 := filterIfDefined f.minTss (fun m item => decide (m ≤ tssOf item)) c5
    let c7 := filterIfDefined f.maxTss (fun m item => decide (tssOf item ≤ m)) c6
    c7

/-- Filter stage of the current getWorkoutLibrary: caller bounds are
minutes, multiplied by 60 into seconds. -/
def applyLibraryFilters : Option LibraryFilters → List LibraryContent → List LibraryContent :=
  applyLibraryFiltersWith 60

/-- Filter stage of the historical getWorkoutLibrary variant, which
multiplies the caller bounds by 3600. -/
def applyLibraryFiltersLegacy : Option LibraryFilters → List LibraryContent → List LibraryContent :=
  applyLibraryFiltersWith 3600

/-- The pure part of the current getWorkoutLibrary applied to the
fetched catalog: filter then sort. -/
def libraryPipeline (lc : String → String → Int)
    (filters : Option LibraryFilters) (content : List LibraryContent) :
    List LibraryContent :=
  sortContent lc (filters.bind LibraryFilters.sortBy)
    (filters.bind LibraryFilters.sortDirection)
    (applyLibraryFilters filters content)

/-- The pure part of the historical getWorkoutLibrary variant. -/
def libraryPipelineLegacy (lc : String → String → Int)
    (filters : Option LibraryFilters) (content : List LibraryContent) :
    List LibraryContent :=
  sortContent lc (filters.bind LibraryFilters.sortBy)
    (filters.bind LibraryFilters.sortDirection)
    (applyLibraryFiltersLegacy filters content)

/-- JavaScript numeric truthiness applied to an optional bound:
`if (filters?.x) baseFilters.x = filters.x` drops a 0 bound. -/
def truthyNum : Option Int → Option Int
  | some n => if n = 0 then none else some n
  | none => none

/-- The baseFilters record that getCyclingWorkouts passes to
getWorkoutLibrary: sport is pinned to Cycling, sortBy and sortDirection
are forwarded, and the four numeric bounds are forwarded only when
truthy (a 0 bound is dropped). -/
def baseFiltersOf (cf : Option CyclingFilters) : LibraryFilters :=
  { sport := some "Cycling"
    channel := none
    level := none
    minDuration := truthyNum (cf.bind CyclingFilters.minDuration)
    maxDuration := truthyNum (cf.bind CyclingFilters.maxDuration)
    minTss := truthyNum (cf.bind CyclingFilters.minTss)
    maxTss := truthyNum (cf.bind CyclingFilters.maxTss)
    sortBy := (cf.bind CyclingFilters.sortBy).map CycSortKey.toSortKey
    sortDirection := cf.bind CyclingFilters.sortDirection }

/-- The rating selected by the lowercased fourDpFocus key inside the
ratings block. -/
def ratingOf : FourDp → Ratings → Int
  | .nm, r => r.nm
  | .ac, r => r.ac
  | .map, r => r.map
  | .ftp, r => r.ftp

/-- Model of w.metrics?.ratings?.[focus] followed by
`rating !== undefined && rating >= 4`: items missing the metrics block
or the ratings block are excluded; otherwise the selected rating must
be at least 4. -/
def fourDpPred (focus : FourDp) (w : LibraryContent) : Bool :=
  match w.metrics.bind Metrics.ratings with
  | some r => decide (4 ≤ ratingOf focus r)
  | none => false

/-- The cycling-specific filters of getCyclingWorkouts, applied after
the base getWorkoutLibrary call: case-insensitive substring match on
channel, case-insensitive equality on category and intensity, then the
4DP focus threshold filter. -/
def cyclingPost (cf : Option CyclingFilters) (workouts : List LibraryContent) :
    List LibraryContent :=
  let w1 := filterIfTruthy (cf.bind CyclingFilters.channel)
    (fun s w => optSubstrCI w.channel s) workouts
  let w2 := filterIfTruthy (cf.bind CyclingFilters.category)
    (fun s w => optEqCI w.category s) w1
  let w3 := filterIfTruthy (cf.bind CyclingFilters.intensity)
    (fun s w => optEqCI w.intensity s) w2
  let w4 := match cf.bind CyclingFilters.fourDpFocus with
    | some focus => w3.filter (fourDpPred focus)
    | none => w3
  w4

/-- Model of workouts.slice(0, stop): for a nonnegative stop this is the
prefix of that length; a negative stop counts from the end, clamped at
zero, following the JavaScript Array.prototype.slice contract. -/
def slice0 (l : List LibraryContent) (stop : Int) : List LibraryContent :=
  if stop < 0 then l.take (Int.toNat ((l.length : Int) + stop))
  else l.take stop.toNat

/-- The full getCyclingWorkouts pipeline before the limit stage:
base library call (filter and sort) followed by the cycling-specific
filters. -/
def cyclingPipelineNoLimit (lc : String → String → Int)
    (cf : Option CyclingFilters) (content : List LibraryContent) :
    List LibraryContent :=
  cyclingPost cf (libraryPipeline lc (some (baseFiltersOf cf)) content)

/-- The pure part of getCyclingWorkouts: the unlimited pipeline followed
by slice(0, limit) with the limit defaulting to 50 (?? does not drop 0). -/
def cyclingPipeline (lc : String → String → Int)
    (cf : Option CyclingFilters) (content : List LibraryContent) :
    List LibraryContent :=
  slice0 (cyclingPipelineNoLimit lc cf content)
    ((cf.bind CyclingFilters.limit).getD 50)

/-- Lexicographic comparison of character lists by code point, used by
the concrete locale-compare model below. -/
def charListLt : List Char → List Char → Bool
  | [], [] => false
  | [], _ :: _ => true
  | _ :: _, [] => false
  | a :: as, b :: bs =>
    if a < b then true else if b < a then false else charListLt as bs

/-- A concrete stand-in for String.prototype.localeCompare in the
default locale, used only to instantiate witnesses: code-point order. -/
def localeCompareModel (a b : String) : Int :=
  if charListLt a.data b.data then -1
  else if charListLt b.data a.data then 1
  else 0

/-- The basic rider profile stored in the session after login. -/
structure RiderProfile where
  nm : Int
  ac : Int
  map : Int
  ftp : Int
deriving DecidableEq

/-- The per-process session: bearer token and basic rider profile.
Both start as none and are assigned only by authenticate. -/
structure Session where
  token : Option String
  riderProfile : Option RiderProfile
deriving DecidableEq

/-- The error taxonomy of the client, one constructor per distinct
throw site. The transport constructor carries the HTTP status text;
authenticationFailed and scheduleFailed carry the upstream message. -/
inductive WahooError where
  | notAuthenticated
  | authenticationFailed (message : String)
  | transport (statusText : String)
  | workoutNotFound (workoutId : String)
  | scheduleFailed (message : Option String)
  | rescheduleFailed
  | removeFailed
deriving DecidableEq

/-- The GraphQL operations the client can issue, identified by
operation name and the caller-dependent variables. Constant variables
(appInformation, locale, the calendar query limit of 1000 and the
library limit of 3000) are fixed in the source and omitted. -/
inductive Request where
  | login (username password : String)
  | userPlanRange (startDate endDate : String)
  | workouts (id : String)
  | library
  | addAgenda (contentId date timeZone : String) (rank : Int)
  | moveAgenda (agendaId date : String) (rank : Int) (timeZone : String)
  | deleteAgenda (agendaId : String)
  | mostRecentTest
  | workoutActivities (workoutIds : List String) (page pageSize : Int)
  | activity (id : String)
deriving DecidableEq

/-- The loginUser payload of the Login mutation, per the
WahooAuthResponse interface. The code reads token, message and
user.profiles.riderProfile. -/
structure AuthResponse where
  status : String
  message : String
  token : String
  riderProfile : RiderProfile
deriving DecidableEq

/-- The addAgenda payload of the AddUserPlanItem mutation. -/
structure AddAgendaResp where
  status : String
  message : Option String
  agendaId : String
deriving DecidableEq

/-- A power value triple as returned by the test queries. -/
structure TestValue where
  status : String
  graphValue : Int
  value : Int
deriving DecidableEq

/-- Rider type classification block. -/
structure RiderTypeInfo where
  name : String
  description : String
  icon : String
deriving DecidableEq

/-- Rider weakness and strength narrative block. -/
structure RiderWeaknessInfo where
  name : String
  description : String
  weaknessSummary : String
  weaknessDescription : String
  strengthName : String
  strengthDescription : String
  strengthSummary : String
deriving DecidableEq

/-- The mostRecentTest payload of the MostRecentTest query. -/
structure MostRecentTest where
  status : String
  message : Option String
  fitnessTestRidden : Bool
  riderType : RiderTypeInfo
  riderWeakness : RiderWeaknessInfo
  power5s : TestValue
  power1m : TestValue
  power5m : TestValue
  power20m : TestValue
  lactateThresholdHeartRate : Int
  startTime : String
  endTime : String
deriving DecidableEq

/-- One derived heart-rate zone; zone 5 has no upper bound. -/
structure HeartRateZone where
  zone : Int
  name : String
  min : Int
  max : Option Int
deriving DecidableEq

/-- The enhanced rider profile assembled by getEnhancedRiderProfile. -/
structure EnhancedRiderProfile where
  nm : Int
  ac : Int
  map : Int
  ftp : Int
  power5s : TestValue
  power1m : TestValue
  power5m : TestValue
  power20m : TestValue
  lactateThresholdHeartRate : Int
  heartRateZones : List HeartRateZone
  riderType : RiderTypeInfo
  riderWeakness : RiderWeaknessInfo
  fitnessTestRidden : Bool
  startTime : String
  endTime : String
deriving DecidableEq

/-- Model of Math.round on an exact rational: round half toward
positive infinity. The source computes the zone boundaries on binary
floats; the zone values are never read by any claim, so the exact
rational rounding stands in for the float computation. -/
def jsRound (q : ℚ) : Int :=
  ⌊q + 1 / 2⌋

/-- The five heart-rate zones derived from LTHR, from
calculateHeartRateZones. -/
def calculateHeartRateZones (lthr : Int) : List HeartRateZone :=
  [ { zone := 1, name := "Active Recovery", min := 0,
      max := some (jsRound ((lthr : ℚ) * (68 / 100))) }
  , { zone := 2, name := "Endurance",
      min := jsRound ((lthr : ℚ) * (68 / 100)) + 1,
      max := some (jsRound ((lthr : ℚ) * (83 / 100))) }
  , { zone := 3, name := "Tempo",
      min := jsRound ((lthr : ℚ) * (83 / 100)) + 1,
      max := some (jsRound ((lthr : ℚ) * (94 / 100))) }
  , { zone := 4, name := "Threshold",
      min := jsRound ((lthr : ℚ) * (94 / 100)) + 1,
      max := some (jsRound ((lthr : ℚ) * (105 / 100))) }
  , { zone := 5, name := "VO2 Max",
      min := jsRound ((lthr : ℚ) * (105 / 100)) + 1, max := none } ]

/-- The network oracle: the environment that answers one HTTP POST per
request. ok models response.ok; when ok is false the client raises a
transport error without reading a body. The typed body accessors mirror
the `response.json() as T` cast the client performs per operation.
Payload types the client never inspects (calendar items, workout
details, fitness-test activities) are the type parameter. -/
structure Net (π : Type) where
  ok : Request → Bool
  statusText : Request → String
  auth : Request → AuthResponse
  planItems : Request → List π
  workoutItems : Request → Option (List π)
  libraryContent : Request → List LibraryContent
  addAgendaResp : Request → AddAgendaResp
  moveAgendaStatus : Request → String
  deleteAgendaStatus : Request → String
  mostRecentTest : Request → Option MostRecentTest
  activityPage : Request → List π × Int
  activity : Request → π

/-- JavaScript truthiness of the stored token as tested by
`if (!this.token)`: present and nonempty. -/
def tokenTruthy : Option String → Bool
  | some s => s ≠ ""
  | none => false

/-- The guard called first by every operation after authenticate:
fails with notAuthenticated when no (truthy) token is stored. -/
def ensureAuthenticated (s : Session) : Except WahooError Unit :=
  if tokenTruthy s.token then .ok () else .error .notAuthenticated

/-- Model of the string defaulting pattern `x || fallback`: an absent
or empty string is replaced by the fallback. -/
def jsStrOr (x : Option String) (fallback : String) : String :=
  match x with
  | some s => if s = "" then fallback else s
  | none => fallback

/-- Model of the numeric defaulting pattern `x || fallback`: an absent
or zero value is replaced by the fallback. -/
def jsNumOr (x : Option Int) (fallback : Int) : Int :=
  match x with
  | some n => if n = 0 then fallback else n
  | none => fallback

/-- authenticate: issues the Login mutation and, when the returned
token is truthy, stores token and rider profile together; otherwise
raises authenticationFailed with the upstream message and leaves the
session unchanged. Returns the operation outcome, the session after
the call, and the list of issued requests. -/
def authenticateOp {π : Type} (s : Session) (net : Net π)
    (username password : String) :
    Except WahooError Unit × Session × List Request :=
  let req := Request.login username password
  if net.ok req then
    let r := net.auth req
    if r.token ≠ "" then
      (.ok (), { token := some r.token, riderProfile := some r.riderProfile }, [req])
    else
      (.error (.authenticationFailed r.message), s, [req])
  else
    (.error (.transport (net.statusText req)), s, [req])

/-- getCalendarWorkouts: guard, then the GetUserPlansRange query with
the date bounds expanded to full-day timestamps; the items are returned
as received. -/
def getCalendarWorkoutsOp {π : Type} (s : Session) (net : Net π)
    (startDate endDate : String) :
    Except WahooError (List π) × List Request :=
  match ensureAuthenticated s with
  | .error e => (.error e, [])
  | .ok _ =>
    let req := Request.userPlanRange (startDate ++ "T00:00:00.000Z")
      (endDate ++ "T23:59:59.999Z")
    if net.ok req then (.ok (net.planItems req), [req])
    else (.error (.transport (net.statusText req)), [req])

/-- getWorkoutDetails: guard, then the GetWorkouts query; a missing or
empty workouts array raises workoutNotFound, otherwise the first item
is returned. -/
def getWorkoutDetailsOp {π : Type} (s : Session) (net : Net π)
    (workoutId : String) : Except WahooError π × List Request :=
  match ensureAuthenticated s with
  | .error e => (.error e, [])
  | .ok _ =>
    let req := Request.workouts workoutId
    if net.ok req then
      match net.workoutItems req with
      | none => (.error (.workoutNotFound workoutId), [req])
      | some [] => (.error (.workoutNotFound workoutId), [req])
      | some (w :: _) => (.ok w, [req])
    else (.error (.transport (net.statusText req)), [req])

/-- getWorkoutLibrary: guard, then the library query, then the pure
filter and sort pipeline applied to the fetched catalog. -/
def getWorkoutLibraryOp {π : Type} (lc : String → String → Int)
    (s : Session) (net : Net π) (filters : Option LibraryFilters) :
    Except WahooError (List LibraryContent) × List Request :=
  match ensureAuthenticated s with
  | .error e => (.error e, [])
  | .ok _ =>
    let req := Request.library
    if net.ok req then
      (.ok (libraryPipeline lc filters (net.libraryContent req)), [req])
    else (.error (.transport (net.statusText req)), [req])

/-- getCyclingWorkouts: delegates to getWorkoutLibrary with the
baseFilters (which performs the authentication guard), then applies the
cycling-specific filters and the limit window. -/
def getCyclingWorkoutsOp {π : Type} (lc : String → String → Int)
    (s : Session) (net : Net π) (cf : Option CyclingFilters) :
    Except WahooError (List LibraryContent) × List Request :=
  match getWorkoutLibraryOp lc s net (some (baseFiltersOf cf)) with
  | (.error e, log) => (.error e, log)
  | (.ok workouts, log) =>
    (.ok (slice0 (cyclingPost cf workouts) ((cf.bind CyclingFilters.limit).getD 50)), log)

/-- scheduleWorkout: guard, then the AddUserPlanItem mutation with the
time zone defaulting to UTC client-side and rank fixed at 200; a status
other than Success raises scheduleFailed with the upstream message,
otherwise the server-assigned agendaId is returned. -/
def scheduleWorkoutOp {π : Type} (s : Session) (net : Net π)
    (contentId date : String) (timeZone : Option String) :
    Except WahooError String × List Request :=
  match ensureAuthenticated s with
  | .error e => (.error e, [])
  | .ok _ =>
    let tz := jsStrOr timeZone "UTC"
    let req := Request.addAgenda contentId date tz 200
    if net.ok req then
      let r := net.addAgendaResp req
      if r.status = "Success" then (.ok r.agendaId, [req])
      else (.error (.scheduleFailed r.message), [req])
    else (.error (.transport (net.statusText req)), [req])

/-- rescheduleWorkout: guard, then the MoveAgenda mutation with the
time zone defaulting to UTC and rank 200; a status other than Success
raises rescheduleFailed. -/
def rescheduleWorkoutOp {π : Type} (s : Session) (net : Net π)
    (agendaId newDate : String) (timeZone : Option String) :
    Except WahooError Unit × List Request :=
  match ensureAuthenticated s with
  | .error e => (.error e, [])
  | .ok _ =>
    let tz := jsStrOr timeZone "UTC"
    let req := Request.moveAgenda agendaId newDate 200 tz
    if net.ok req then
      if net.moveAgendaStatus req = "Success" then (.ok (), [req])
      else (.error .rescheduleFailed, [req])
    else (.error (.transport (net.statusText req)), [req])

/-- removeWorkout: guard, then the DeleteAgenda mutation; a status
other than Success raises removeFailed. -/
def removeWorkoutOp {π : Type} (s : Session) (net : Net π)
    (agendaId : String) : Except WahooError Unit × List Request :=
  match ensureAuthenticated s with
  | .error e => (.error e, [])
  | .ok _ =>
    let req := Request.deleteAgenda agendaId
    if net.ok req then
      if net.deleteAgendaStatus req = "Success" then (.ok (), [req])
      else (.error .removeFailed, [req])
    else (.error (.transport (net.statusText req)), [req])

/-- The enhanced profile assembled from a successful mostRecentTest
payload, including the derived heart-rate zones. -/
def buildEnhancedProfile (t : MostRecentTest) : EnhancedRiderProfile :=
  { nm := t.power5s.value
    ac := t.power1m.value
    map := t.power5m.value
    ftp := t.power20m.value
    power5s := t.power5s
    power1m := t.power1m
    power5m := t.power5m
    power20m := t.power20m
    lactateThresholdHeartRate := t.lactateThresholdHeartRate
    heartRateZones := calculateHeartRateZones t.lactateThresholdHeartRate
    riderType := t.riderType
    riderWeakness := t.riderWeakness
    fitnessTestRidden := t.fitnessTestRidden
    startTime := t.startTime
    endTime := t.endTime }

/-- getEnhancedRiderProfile: guard, then the MostRecentTest query; a
missing payload or a status other than ok yields none, otherwise the
assembled enhanced profile. -/
def getEnhancedRiderProfileOp {π : Type} (s : Session) (net : Net π) :
    Except WahooError (Option EnhancedRiderProfile) × List Request :=
  match ensureAuthenticated s with
  | .error e => (.error e, [])
  | .ok _ =>
    let req := Request.mostRecentTest
    if net.ok req then
      match net.mostRecentTest req with
      | none => (.ok none, [req])
      | some t =>
        if t.status = "ok" then (.ok (some (buildEnhancedProfile t)), [req])
        else (.ok none, [req])
    else (.error (.transport (net.statusText req)), [req])

/-- The two fixed fitness-test workout identifiers in the library
(Full Frontal and Half Monty). -/
def fitnessTestWorkoutIds : List String :=
  ["dRcyg09t6K", "0SmbqUIZZo"]

/-- The optional paging options of getFitnessTestHistory. -/
structure PageOptions where
  page : Option Int := none
  pageSize : Option Int := none
deriving DecidableEq

/-- getFitnessTestHistory: guard, then the GetWorkoutActivities query
for the two fixed fitness-test workout ids, with page defaulting to 1
and pageSize to 15; the activities and total count are returned as
received. -/
def getFitnessTestHistoryOp {π : Type} (s : Session) (net : Net π)
    (options : Option PageOptions) :
    Except WahooError (List π × Int) × List Request :=
  match ensureAuthenticated s with
  | .error e => (.error e, [])
  | .ok _ =>
    let req := Request.workoutActivities fitnessTestWorkoutIds
      (jsNumOr (options.bind PageOptions.page) 1)
      (jsNumOr (options.bind PageOptions.pageSize) 15)
    if net.ok req then (.ok (net.activityPage req), [req])
    else (.error (.transport (net.statusText req)), [req])

/-- getFitnessTestDetails: guard, then the GetActivity query; the
activity is returned as received. -/
def getFitnessTestDetailsOp {π : Type} (s : Session) (net : Net π)
    (activityId : String) : Except WahooError π × List Request :=
  match ensureAuthenticated s with
  | .error e => (.error e, [])
  | .ok _ =>
    let req := Request.activity activityId
    if net.ok req then (.ok (net.activity req), [req])
    else (.error (.transport (net.statusText req)), [req])

/-- The ten guarded public operations of the client together with their
arguments, used to quantify over all of them at once. -/
inductive GuardedCall where
  | calendar (startDate endDate : String)
  | details (workoutId : String)
  | library (filters : Option LibraryFilters)
  | cycling (filters : Option CyclingFilters)
  | schedule (contentId date : String) (timeZone : Option String)
  | reschedule (agendaId newDate : String) (timeZone : Option String)
  | remove (agendaId : String)
  | enhancedProfile
  | testHistory (options : Option PageOptions)
  | testDetails (activityId : String)

/-- The union of the result types of the guarded operations. -/
inductive GuardedResult (π : Type) where
  | planItems (items : List π)
  | workout (w : π)
  | libraryItems (items : List LibraryContent)
  | scheduled (agendaId : String)
  | done
  | profile (p : Option EnhancedRiderProfile)
  | history (activities : List π) (total : Int)
  | activityDetails (a : π)

/-- Tags the outcome of one operation with its result constructor,
keeping the error and the request log unchanged. -/
def tagResult {π α : Type} (f : α → GuardedResult π)
    (r : Except WahooError α × List Request) :
    Except WahooError (GuardedResult π) × List Request :=
  (r.1.map f, r.2)

/-- Dispatches one guarded call against a session and a network
oracle, returning the outcome and the list of issued requests. -/
def runGuarded {π : Type} (lc : String → String → Int) (s : Session)
    (net : Net π) : GuardedCall →
    Except WahooError (GuardedResult π) × List Request
  | .calendar startDate endDate =>
    tagResult .planItems (getCalendarWorkoutsOp s net startDate endDate)
  | .details workoutId =>
    tagResult .workout (getWorkoutDetailsOp s net workoutId)
  | .library filters =>
    tagResult .libraryItems (getWorkoutLibraryOp lc s net filters)
  | .cycling filters =>
    tagResult .libraryItems (getCyclingWorkoutsOp lc s net filters)
  | .schedule contentId date timeZone =>
    tagResult .scheduled (scheduleWorkoutOp s net contentId date timeZone)
  | .reschedule agendaId newDate timeZone =>
    tagResult (fun _ => .done) (rescheduleWorkoutOp s net agendaId newDate timeZone)
  | .remove agendaId =>
    tagResult (fun _ => .done) (removeWorkoutOp s net agendaId)
  | .enhancedProfile =>
    tagResult .profile (getEnhancedRiderProfileOp s net)
  | .testHistory options =>
    tagResult (fun p => .history p.1 p.2) (getFitnessTestHistoryOp s net options)
  | .testDetails activityId =>
    tagResult .activityDetails (getFitnessTestDetailsOp s net activityId)

/-- The session states reachable in one process: the empty initial
session, plus anything authenticate produces. authenticate is the only
method of the client that assigns the token or riderProfile fields; the
guarded operations read the session but never write it, so these two
constructors enumerate every write. -/
inductive Reachable : Session → Prop where
  | init : Reachable { token := none, riderProfile := none }
  | auth (s : Session) (net : Net Unit) (username password : String)
      (h : Reachable s) :
      Reachable (authenticateOp s net username password).2.1

/-- The state of one field in a raw upstream JSON record: absent from
the object, present as null, or present with a value. -/
inductive RawField (α : Type) where
  | missing
  | null
  | val (a : α)
deriving DecidableEq

/-- Parse of a required, non-nullable zod field: only a present value
validates. -/
def reqField {α : Type} : RawField α → Option α
  | .val a => some a
  | _ => none

/-- Parse of a field declared optional (but not nullable): absence is
accepted and maps to none, null is a validation failure, and a value
is parsed by p. -/
def optParse {α β : Type} (p : α → Option β) : RawField α → Option (Option β)
  | .missing => some none
  | .null => none
  | .val a => (p a).map some

/-- Parse of a field declared optional without a nested schema. -/
def optField {α : Type} : RawField α → Option (Option α) :=
  optParse some

/-- Parse of a field declared nullable and optional: absence and null
both map to none; the output collapses null and undefined, which the
schemas never distinguish downstream. -/
def nullOptField {α : Type} : RawField α → Option (Option α)
  | .missing => some none
  | .null => some none
  | .val a => some (some a)

/-- An equipment entry (EquipmentSchema). Element-level object schemas
contain no transforms or defaults, so their content is modeled as
already-typed data; field-level presence and nullability, which is what
the normalization claims are about, is carried by RawField. -/
structure EquipmentItem where
  name : String
  description : String
  thumbnail : Option String
deriving DecidableEq

/-- A description entry (DescriptionSchema). -/
structure DescriptionItem where
  title : String
  body : String
deriving DecidableEq

/-- A featured race entry (FeaturedRaceSchema). -/
structure FeaturedRace where
  name : String
  thumbnail : Option String
  darkBackgroundThumbnail : Option String
deriving DecidableEq

/-- The raw ratings block fed to RatingsSchema: all four fields are
required numbers. -/
structure RawRatings where
  nm : RawField Int
  ac : RawField Int
  map : RawField Int
  ftp : RawField Int
deriving DecidableEq

/-- The raw metrics block fed to MetricsSchema: intensityFactor, tss
and ratings are all optional (not nullable). -/
structure RawMetrics where
  intensityFactor : RawField Int
  tss : RawField Int
  ratings : RawField RawRatings
deriving DecidableEq

/-- RatingsSchema: all four ratings must be present values. -/
def parseRatings (r : RawRatings) : Option Ratings :=
  (reqField r.nm).bind fun nm =>
  (reqField r.ac).bind fun ac =>
  (reqField r.map).bind fun mp =>
  (reqField r.ftp).bind fun ftp =>
  some { nm := nm, ac := ac, map := mp, ftp := ftp }

/-- MetricsSchema: the three optional fields, with ratings validated by
RatingsSchema when present. No defaults are applied at this level. -/
def parseMetrics (m : RawMetrics) : Option Metrics :=
  (optField m.intensityFactor).bind fun intensityFactor =>
  (optField m.tss).bind fun tss =>
  (optParse parseRatings m.ratings).bind fun ratings =>
  some { tss := tss, intensityFactor := intensityFactor, ratings := ratings }

/-- The raw record fed to WorkoutDetailsSchema, one RawField per
schema field. -/
structure RawWorkoutDetails where
  id : RawField String
  sortOrder : RawField Int
  sport : RawField String
  stampImage : RawField String
  bannerImage : RawField String
  bestFor : RawField String
  equipment : RawField (List EquipmentItem)
  details : RawField String
  shortDescription : RawField String
  descriptions : RawField (List DescriptionItem)
  level : RawField String
  durationSeconds : RawField Int
  name : RawField String
  triggers : RawField String
  featuredRaces : RawField (List FeaturedRace)
  metrics : RawField RawMetrics
  brand : RawField String
  nonAppWorkout : RawField Bool
  notes : RawField String
  tags : RawField (List String)
deriving DecidableEq

/-- The metrics shape produced by the transform on
WorkoutDetailsSchema.metrics: every field defaulted. -/
structure NormMetrics where
  intensityFactor : Int
  tss : Int
  ratings : Ratings
deriving DecidableEq

/-- The normalized output of WorkoutDetailsSchema: level and triggers
are plain strings (defaulted to empty), metrics is fully defaulted. -/
structure WorkoutDetailsNorm where
  id : String
  sortOrder : Option Int
  sport : String
  stampImage : Option String
  bannerImage : Option String
  bestFor : Option String
  equipment : Option (List EquipmentItem)
  details : String
  shortDescription : String
  descriptions : Option (List DescriptionItem)
  level : String
  durationSeconds : Int
  name : String
  triggers : String
  featuredRaces : Option (List FeaturedRace)
  metrics : NormMetrics
  brand : Option String
  nonAppWorkout : Option Bool
  notes : Option String
  tags : Option (List String)
deriving DecidableEq

/-- Parse of the required metrics field of WorkoutDetailsSchema:
absent or null is a validation failure; a present block is validated by
MetricsSchema. -/
def parseMetricsField : RawField RawMetrics → Option Metrics
  | .val m => parseMetrics m
  | _ => none

/-- WorkoutDetailsSchema. Field kinds follow the zod declarations:
id, sport, details, shortDescription, durationSeconds and name are
required; sortOrder, bestFor, equipment, featuredRaces, brand and notes
are nullable optional; stampImage, bannerImage, descriptions,
nonAppWorkout and tags are optional; level is nullable optional with
the empty-string transform; triggers is optional with the empty-string
transform; metrics is REQUIRED and its transform defaults
intensityFactor and tss to 0 and ratings to the all-zero block.
The record validates exactly when every field validates. -/
def parseWorkoutDetails (w : RawWorkoutDetails) : Option WorkoutDetailsNorm :=
  match reqField w.id, nullOptField w.sortOrder, reqField w.sport,
    optField w.stampImage, optField w.bannerImage, nullOptField w.bestFor,
    nullOptField w.equipment, reqField w.details,
    reqField w.shortDescription, optField w.descriptions,
    nullOptField w.level, reqField w.durationSeconds, reqField w.name,
    optField w.triggers, nullOptField w.featuredRaces,
    parseMetricsField w.metrics, nullOptField w.brand,
    optField w.nonAppWorkout, nullOptField w.notes, optField w.tags with
  | some id, some sortOrder, some sport, some stampImage, some bannerImage,
    some bestFor, some equipment, some details, some shortDescription,
    some descriptions, some level, some durationSeconds, some name,
    some triggers, some featuredRaces, some m, some brand,
    some nonAppWorkout, some notes, some tags =>
    some
      { id := id
        sortOrder := sortOrder
        sport := sport
        stampImage := stampImage
        bannerImage := bannerImage
        bestFor := bestFor
        equipment := equipment
        details := details
        shortDescription := shortDescription
        descriptions := descriptions
        level := level.getD ""
        durationSeconds := durationSeconds
        name := name
        triggers := triggers.getD ""
        featuredRaces := featuredRaces
        metrics :=
          { intensityFactor := m.intensityFactor.getD 0
            tss := m.tss.getD 0
            ratings := m.ratings.getD { nm := 0, ac := 0, map := 0, ftp := 0 } }
        brand := brand
        nonAppWorkout := nonAppWorkout
        notes := notes
        tags := tags }
  | _, _, _, _, _, _, _, _, _, _, _, _, _, _, _, _, _, _, _, _ => none

/-- The raw record fed to LibraryContentSchema. -/
structure RawLibraryContent where
  id : RawField String
  name : RawField String
  mediaType : RawField String
  channel : RawField String
  workoutType : RawField String
  category : RawField String
  level : RawField String
  duration : RawField Int
  workoutId : RawField String
  videoId : RawField String
  bannerImage : RawField String
  posterImage : RawField String
  defaultImage : RawField String
  intensity : RawField String
  tags : RawField (List String)
  descriptions : RawField (List DescriptionItem)
  metrics : RawField RawMetrics
deriving DecidableEq

/-- The output of LibraryContentSchema: no transforms anywhere, so the
optional fields stay optional; in particular an absent metrics block
stays absent. -/
structure LibraryContentParsed where
  id : String
  name : String
  mediaType : String
  channel : String
  workoutType : String
  category : String
  level : String
  duration : Int
  workoutId : String
  videoId : Option String
  bannerImage : Option String
  posterImage : Option String
  defaultImage : Option String
  intensity : Option String
  tags : Option (List String)
  descriptions : Option (List DescriptionItem)
  metrics : Option Metrics
deriving DecidableEq

/-- LibraryContentSchema: id through workoutId are required (including
level, which has no transform on this schema); videoId through
descriptions are optional; metrics is optional with MetricsSchema and
no transform. The record validates exactly when every field
validates. -/
def parseLibraryContent (w : RawLibraryContent) : Option LibraryContentParsed :=
  match reqField w.id, reqField w.name, reqField w.mediaType,
    reqField w.channel, reqField w.workoutType, reqField w.category,
    reqField w.level, reqField w.duration, reqField w.workoutId,
    optField w.videoId, optField w.bannerImage, optField w.posterImage,
    optField w.defaultImage, optField w.intensity, optField w.tags,
    optField w.descriptions, optParse parseMetrics w.metrics with
  | some id, some name, some mediaType, some channel, some workoutType,
    some category, some level, some duration, some workoutId, some videoId,
    some bannerImage, some posterImage, some defaultImage, some intensity,
    some tags, some descriptions, some metrics =>
    some
      { id := id
        name := name
        mediaType := mediaType
        channel := channel
        workoutType := workoutType
        category := category
        level := level
        duration := duration
        workoutId := workoutId
        videoId := videoId
        bannerImage := bannerImage
        posterImage := posterImage
        defaultImage := defaultImage
        intensity := intensity
        tags := tags
        descriptions := descriptions
        metrics := metrics }
  | _, _, _, _, _, _, _, _, _, _, _, _, _, _, _, _, _ => none

theorem mem_filterIfTruthy {v : Option String} {p : String → LibraryContent → Bool}
    {l : List LibraryContent} {a : LibraryContent} :
    a ∈ filterIfTruthy v p l ↔
      a ∈ l ∧ ∀ s, v = some s → s ≠ "" → p s a = true := by
  cases v with
  | none => simp [filterIfTruthy]
  | some s =>
    by_cases hs : s = ""
    · subst hs
      simp [filterIfTruthy]
    · simp only [filterIfTruthy, if_neg hs, List.mem_filter,
        Option.some.injEq]
      constructor
      · rintro ⟨h1, h2⟩
        exact ⟨h1, fun t ht _ => ht ▸ h2⟩
      · rintro ⟨h1, h2⟩
        exact ⟨h1, h2 s rfl hs⟩

theorem mem_filterIfDefined {v : Option Int} {p : Int → LibraryContent → Bool}
    {l : List LibraryContent} {a : LibraryContent} :
    a ∈ filterIfDefined v p l ↔
      a ∈ l ∧ ∀ n, v = some n → p n a = true := by
  cases v with
  | none => simp [filterIfDefined]
  | some n =>
    simp only [filterIfDefined, List.mem_filter, Option.some.injEq]
    constructor
    · rintro ⟨h1, h2⟩
      exact ⟨h1, fun t ht => ht ▸ h2⟩
    · rintro ⟨h1, h2⟩
      exact ⟨h1, h2 n rfl⟩

theorem mem_sortContent {lc : String → String → Int} {k : Option SortKey}
    {d : Option SortDir} {l : List LibraryContent} {a : LibraryContent} :
    a ∈ sortContent lc k d l ↔ a ∈ l := by
  simp [sortContent, List.mem_mergeSort]

theorem mem_applyFiltersWith {u : Int} {f : LibraryFilters}
    {l : List LibraryContent} {a : LibraryContent} :
    a ∈ applyLibraryFiltersWith u (some f) l ↔
      a ∈ l
      ∧ (∀ s, f.sport = some s → s ≠ "" → optEqCI a.workoutType s = true)
      ∧ (∀ s, f.channel = some s → s ≠ "" → optEqCI a.channel s = true)
      ∧ (∀ s, f.level = some s → s ≠ "" → optEqCI a.level s = true)
      ∧ (∀ m, f.minDuration = some m → m * u ≤ a.duration)
      ∧ (∀ m, f.maxDuration = some m → a.duration ≤ m * u)
      ∧ (∀ m, f.minTss = some m → m ≤ tssOf a)
      ∧ (∀ m, f.maxTss = some m → tssOf a ≤ m) := by
  simp only [applyLibraryFiltersWith]
  rw [mem_filterIfDefined, mem_filterIfDefined, mem_filterIfDefined,
    mem_filterIfDefined, mem_filterIfTruthy, mem_filterIfTruthy,
    mem_filterIfTruthy]
  simp only [decide_eq_true_eq, and_assoc]

theorem mem_cyclingPost {cf : CyclingFilters} {l : List LibraryContent}
    {a : LibraryContent} :
    a ∈ cyclingPost (some cf) l ↔
      a ∈ l
      ∧ (∀ s, cf.channel = some s → s ≠ "" → optSubstrCI a.channel s = true)
      ∧ (∀ s, cf.category = some s → s ≠ "" → optEqCI a.category s = true)
      ∧ (∀ s, cf.intensity = some s → s ≠ "" → optEqCI a.intensity s = true)
      ∧ (∀ fo, cf.fourDpFocus = some fo → fourDpPred fo a = true) := by
  cases hf : cf.fourDpFocus with
  | none =>
    simp only [cyclingPost, Option.some_bind, hf]
    rw [mem_filterIfTruthy, mem_filterIfTruthy, mem_filterIfTruthy]
    simp [and_assoc]
  | some fo =>
    simp only [cyclingPost, Option.some_bind, hf]
    rw [List.mem_filter, mem_filterIfTruthy, mem_filterIfTruthy,
      mem_filterIfTruthy]
    simp only [Option.some.injEq, and_assoc]
    constructor
    · rintro ⟨h1, h2, h3, h4, h5⟩
      exact ⟨h1, h2, h3, h4, fun g hg => hg ▸ h5⟩
    · rintro ⟨h1, h2, h3, h4, h5⟩
      exact ⟨h1, h2, h3, h4, h5 fo rfl⟩

theorem mem_of_slice0 {l : List LibraryContent} {e : Int}
    {a : LibraryContent} (h : a ∈ slice0 l e) : a ∈ l := by
  unfold slice0 at h
  split at h
  · exact List.take_subset _ _ h
  · exact List.take_subset _ _ h

/-- A cycling catalog item with a high FTP rating, used in concrete
witnesses. -/
def wkA : LibraryContent :=
  { id := "a"
    name := "Primers"
    channel := some "Sufferfest"
    workoutType := some "Cycling"
    category := some "Speed"
    level := some "Intermediate"
    duration := 2640
    workoutId := "wa"
    intensity := some "High"
    metrics := some
      { tss := some 42
        intensityFactor := some 80
        ratings := some { nm := 2, ac := 3, map := 3, ftp := 5 } } }

/-- A cycling catalog item with FTP rating 3 (below the focus
threshold). -/
def wkB : LibraryContent :=
  { id := "b"
    name := "Hammer"
    channel := some "Sufferfest"
    workoutType := some "Cycling"
    category := some "Climbing"
    level := some "Advanced"
    duration := 1800
    workoutId := "wb"
    intensity := some "High"
    metrics := some
      { tss := some 30
        intensityFactor := some 75
        ratings := some { nm := 1, ac := 2, map := 4, ftp := 3 } } }

/-- A cycling catalog item whose metrics block lacks the ratings
sub-field. -/
def wkC : LibraryContent :=
  { id := "c"
    name := "NoRatings"
    channel := some "On Location"
    workoutType := some "Cycling"
    category := none
    level := none
    duration := 3600
    workoutId := "wc"
    intensity := none
    metrics := some { tss := some 10, intensityFactor := none, ratings := none } }

/-- A cycling catalog item missing the metrics block entirely. -/
def wkD : LibraryContent :=
  { id := "d"
    name := "NoMetrics"
    channel := some "Inspiration"
    workoutType := some "Cycling"
    category := none
    level := none
    duration := 7200
    workoutId := "wd"
    intensity := none
    metrics := none }

/-- C1: for every call to getCyclingWorkouts with a fourDpFocus energy
system supplied, every item in the returned list carries a ratings
block whose rating for that system is defined and at least 4; items
with a lower rating or without a ratings block never appear (they are
excluded by the contrapositive of this theorem). -/
theorem getCyclingWorkouts_fourDpFocus_threshold
    (lc : String → String → Int) (cf : CyclingFilters)
    (content : List LibraryContent) (focus : FourDp) (item : LibraryContent)
    (hf : cf.fourDpFocus = some focus)
    (hmem : item ∈ cyclingPipeline lc (some cf) content) :
    ∃ r, item.metrics.bind Metrics.ratings = some r ∧ 4 ≤ ratingOf focus r := by
  unfold cyclingPipeline at hmem
  have h1 : item ∈ cyclingPipelineNoLimit lc (some cf) content :=
    mem_of_slice0 hmem
  unfold cyclingPipelineNoLimit at h1
  have h2 := (mem_cyclingPost.mp h1).2.2.2.2 focus hf
  unfold fourDpPred at h2
  cases hr : item.metrics.bind Metrics.ratings with
  | none => rw [hr] at h2; cases h2
  | some r =>
    rw [hr] at h2
    exact ⟨r, rfl, of_decide_eq_true h2⟩

unseal List.merge List.mergeSort in
/-- Witness for C1: on a concrete four-item cycling catalog with FTP
focus, the item with FTP rating 5 is returned and the theorem yields
its ratings block and threshold bound. -/
theorem getCyclingWorkouts_fourDpFocus_threshold_witness :
    ∃ r, wkA.metrics.bind Metrics.ratings = some r ∧ 4 ≤ ratingOf FourDp.ftp r :=
  getCyclingWorkouts_fourDpFocus_threshold localeCompareModel
    { fourDpFocus := some FourDp.ftp } [wkA, wkB, wkC, wkD] FourDp.ftp wkA rfl
    (by decide)

unseal List.merge List.mergeSort in
/-- Counterexample for C2: when the sport filter is supplied as the
empty string, the JavaScript truthiness test `if (filters.sport)` skips
the filter entirely, so an item whose workoutType does not
case-insensitively equal the supplied sport value is still returned,
violating the claimed conjunction of all supplied filter predicates. -/
theorem getWorkoutLibrary_empty_sport_ignored :
    wkA ∈ libraryPipeline localeCompareModel (some { sport := some "" }) [wkA]
      ∧ optEqCI wkA.workoutType "" = false := by
  constructor
  · decide
  · decide

/-- C2 (amended): every item returned by getWorkoutLibrary satisfies
every supplied filter predicate, where the string-valued filters
(sport, channel, level) count as supplied only when nonempty — an
empty-string value is ignored by the JavaScript truthiness test — the
numeric bounds are inclusive and apply whenever present, a missing
metrics.tss is compared as 0, and omitted filters impose no constraint
(the filter stage is the identity when no filter is supplied). -/
theorem getWorkoutLibrary_filters_conjunctive
    (lc : String → String → Int) (f : LibraryFilters)
    (content : List LibraryContent) :
    (∀ item, item ∈ libraryPipeline lc (some f) content →
      (∀ s, f.sport = some s → s ≠ "" → optEqCI item.workoutType s = true)
      ∧ (∀ s, f.channel = some s → s ≠ "" → optEqCI item.channel s = true)
      ∧ (∀ s, f.level = some s → s ≠ "" → optEqCI item.level s = true)
      ∧ (∀ m, f.minDuration = some m → m * 60 ≤ item.duration)
      ∧ (∀ m, f.maxDuration = some m → item.duration ≤ m * 60)
      ∧ (∀ m, f.minTss = some m → m ≤ tssOf item)
      ∧ (∀ m, f.maxTss = some m → tssOf item ≤ m))
    ∧ applyLibraryFilters none content = content
    ∧ applyLibraryFilters (some {}) content = content := by
  refine ⟨fun item hmem => ?_, rfl, rfl⟩
  unfold libraryPipeline at hmem
  have h1 : item ∈ applyLibraryFilters (some f) content :=
    mem_sortContent.mp hmem
  exact (mem_applyFiltersWith.mp h1).2

unseal List.merge List.mergeSort in
/-- Witness for C2 (amended): on a concrete catalog with sport, TSS and
duration filters supplied, the returned item wkA satisfies every
supplied predicate. -/
theorem getWorkoutLibrary_filters_conjunctive_witness :
    (∀ s, (some "Cycling" : Option String) = some s → s ≠ "" →
      optEqCI wkA.workoutType s = true)
    ∧ (∀ s, (none : Option String) = some s → s ≠ "" →
      optEqCI wkA.channel s = true)
    ∧ (∀ s, (none : Option String) = some s → s ≠ "" →
      optEqCI wkA.level s = true)
    ∧ (∀ m, (none : Option Int) = some m → m * 60 ≤ wkA.duration)
    ∧ (∀ m, (some 60 : Option Int) = some m → wkA.duration ≤ m * 60)
    ∧ (∀ m, (some 40 : Option Int) = some m → m ≤ tssOf wkA)
    ∧ (∀ m, (some 60 : Option Int) = some m → tssOf wkA ≤ m) :=
  (getWorkoutLibrary_filters_conjunctive localeCompareModel
    { sport := some "Cycling", maxDuration := some 60, minTss := some 40,
      maxTss := some 60 } [wkA, wkB, wkD]).1 wkA (by decide)

unseal List.merge List.mergeSort in
/-- Counterexample for C3: in the historical getWorkoutLibrary variant
the duration bounds are multiplied by 3600, not 60, so with
maxDuration 30 a 7200-second item is returned (7200 le 108000) even
though it violates the claimed bound of 30 * 60 = 1800 seconds. -/
theorem getWorkoutLibrary_duration_unit_counterexample :
    wkD ∈ libraryPipelineLegacy localeCompareModel
        (some { maxDuration := some 30 }) [wkD]
      ∧ ¬ (wkD.duration ≤ 30 * 60) := by
  constructor
  · decide
  · decide

/-- C3 (amended): in the current getWorkoutLibrary the caller-provided
duration bounds are interpreted as minutes and multiplied by 60 before
the inclusive comparison against the duration field in seconds, so
every returned item lies within the minute bounds times 60; in the
historical variant of the same function the bounds are multiplied by
3600 instead, so its returned items are only guaranteed to lie within
the bounds times 3600. -/
theorem getWorkoutLibrary_duration_bounds_minutes
    (lc : String → String → Int) (f : LibraryFilters)
    (content : List LibraryContent) :
    (∀ item, item ∈ libraryPipeline lc (some f) content →
      (∀ m, f.minDuration = some m → m * 60 ≤ item.duration)
      ∧ (∀ m, f.maxDuration = some m → item.duration ≤ m * 60))
    ∧ (∀ item, item ∈ libraryPipelineLegacy lc (some f) content →
      (∀ m, f.minDuration = some m → m * 3600 ≤ item.duration)
      ∧ (∀ m, f.maxDuration = some m → item.duration ≤ m * 3600)) := by
  constructor
  · intro item hmem
    unfold libraryPipeline at hmem
    have h1 : item ∈ applyLibraryFilters (some f) content :=
      mem_sortContent.mp hmem
    have h2 := (mem_applyFiltersWith.mp h1).2
    exact ⟨h2.2.2.2.1, h2.2.2.2.2.1⟩
  · intro item hmem
    unfold libraryPipelineLegacy at hmem
    have h1 : item ∈ applyLibraryFiltersLegacy (some f) content :=
      mem_sortContent.mp hmem
    have h2 := (mem_applyFiltersWith.mp h1).2
    exact ⟨h2.2.2.2.1, h2.2.2.2.2.1⟩

unseal List.merge List.mergeSort in
/-- Witness for C3 (amended): with minDuration 30 and maxDuration 60
supplied, the returned item wkA (2640 seconds) satisfies both minute
bounds converted at 60 seconds per minute. -/
theorem getWorkoutLibrary_duration_bounds_minutes_witness :
    (∀ m, (some 30 : Option Int) = some m → m * 60 ≤ wkA.duration)
    ∧ (∀ m, (some 60 : Option Int) = some m → wkA.duration ≤ m * 60) :=
  (getWorkoutLibrary_duration_bounds_minutes localeCompareModel
    { minDuration := some 30, maxDuration := some 60 } [wkA, wkB, wkD]).1
    wkA (by decide)

/-- C4: exactly one sort key is active, defaulting to name ascending;
the descending direction is the same comparator negated through the
single sign multiplier; for sortBy duration with sortDirection desc the
returned sequence is non-increasing in duration; and the sort is
stable with no secondary key, so items with equal duration keep their
relative order from the filter stage (their subsequence is unchanged).
Determinism is inherent: the pipeline is a pure function of its
inputs. -/
theorem getWorkoutLibrary_sort_properties
    (lc : String → String → Int) (l : List LibraryContent) :
    (sortContent lc none none l
      = sortContent lc (some SortKey.name) (some SortDir.asc) l)
    ∧ (∀ key a b, compareValue lc key a b * dirMultiplier SortDir.desc
        = -(compareValue lc key a b * dirMultiplier SortDir.asc))
    ∧ ((sortContent lc (some SortKey.duration) (some SortDir.desc) l).Pairwise
        (fun a b => b.duration ≤ a.duration))
    ∧ (∀ d : Int,
        (sortContent lc (some SortKey.duration) (some SortDir.desc) l).filter
          (fun x => x.duration == d)
        = l.filter (fun x => x.duration == d)) := by
  have trans : ∀ a b c : LibraryContent,
      sortLe lc SortKey.duration SortDir.desc a b →
      sortLe lc SortKey.duration SortDir.desc b c →
      sortLe lc SortKey.duration SortDir.desc a c := by
    intro a b c hab hbc
    simp only [sortLe, compareValue, dirMultiplier, decide_eq_true_eq] at *
    omega
  have total : ∀ a b : LibraryContent,
      sortLe lc SortKey.duration SortDir.desc a b
        || sortLe lc SortKey.duration SortDir.desc b a := by
    intro a b
    simp only [sortLe, compareValue, dirMultiplier, Bool.or_eq_true,
      decide_eq_true_eq]
    omega
  refine ⟨rfl, ?_, ?_, ?_⟩
  · intro key a b
    simp only [dirMultiplier, mul_one, Int.mul_neg_one]
  · have hp := List.sorted_mergeSort trans total l
    unfold sortContent
    simp only [Option.getD_some]
    refine hp.imp ?_
    intro a b h
    simp only [sortLe, compareValue, dirMultiplier, decide_eq_true_eq] at h
    omega
  · intro d
    have hcsub : List.Sublist (l.filter (fun x => x.duration == d)) l :=
      List.filter_sublist l
    have hcpair : (l.filter (fun x => x.duration == d)).Pairwise
        (fun a b => sortLe lc SortKey.duration SortDir.desc a b = true) := by
      apply List.pairwise_of_forall_mem_list
      intro a ha b hb
      have ha2 := (List.mem_filter.mp ha).2
      have hb2 := (List.mem_filter.mp hb).2
      simp only [beq_iff_eq] at ha2 hb2
      simp only [sortLe, compareValue, dirMultiplier, decide_eq_true_eq]
      omega
    have hsl := List.sublist_mergeSort trans total hcpair hcsub
    have hfil : (l.filter (fun x => x.duration == d)).filter
        (fun x => x.duration == d) = l.filter (fun x => x.duration == d) :=
      List.filter_eq_self.mpr (fun a ha => (List.mem_filter.mp ha).2)
    have hsl2 := List.Sublist.filter (fun x => x.duration == d) hsl
    rw [hfil] at hsl2
    have hperm := (List.mergeSort_perm l
      (sortLe lc SortKey.duration SortDir.desc)).filter
      (fun x => x.duration == d)
    have hlen := hperm.length_eq
    unfold sortContent
    simp only [Option.getD_some]
    exact (hsl2.eq_of_length (by rw [hlen])).symm

theorem filterIfTruthy_sublist {v : Option String}
    {p : String → LibraryContent → Bool} {l : List LibraryContent} :
    List.Sublist (filterIfTruthy v p l) l := by
  cases v with
  | none => exact List.Sublist.refl l
  | some s =>
    show List.Sublist (if s = "" then l else List.filter (p s) l) l
    by_cases hs : s = ""
    · rw [if_pos hs]
    · rw [if_neg hs]
      exact List.filter_sublist l

theorem cyclingPost_sublist {cf : Option CyclingFilters}
    {l : List LibraryContent} : List.Sublist (cyclingPost cf l) l := by
  unfold cyclingPost
  cases hf : cf.bind CyclingFilters.fourDpFocus with
  | none =>
    exact (filterIfTruthy_sublist.trans filterIfTruthy_sublist).trans
      filterIfTruthy_sublist
  | some fo =>
    exact ((List.filter_sublist _).trans
      ((filterIfTruthy_sublist.trans filterIfTruthy_sublist).trans
        filterIfTruthy_sublist))

/-- C5: the limit of getCyclingWorkouts is a result window applied
after the whole filter and sort pipeline: with a nonnegative limit n
the result is exactly the first n elements of the unlimited pipeline,
hence a prefix of it, and under sortBy duration descending every
returned item has duration at least that of every item the window cut
off. -/
theorem getCyclingWorkouts_limit_window
    (lc : String → String → Int) (cf : CyclingFilters)
    (content : List LibraryContent) (n : Int)
    (hl : cf.limit = some n) (hn : 0 ≤ n) :
    (cyclingPipeline lc (some cf) content
      = (cyclingPipelineNoLimit lc (some cf) content).take n.toNat)
    ∧ (∃ rest, cyclingPipelineNoLimit lc (some cf) content
        = cyclingPipeline lc (some cf) content ++ rest)
    ∧ (cf.sortBy = some CycSortKey.duration →
       cf.sortDirection = some SortDir.desc →
       ∀ x ∈ cyclingPipeline lc (some cf) content,
       ∀ y ∈ (cyclingPipelineNoLimit lc (some cf) content).drop n.toNat,
       y.duration ≤ x.duration) := by
  have heq : cyclingPipeline lc (some cf) content
      = (cyclingPipelineNoLimit lc (some cf) content).take n.toNat := by
    unfold cyclingPipeline slice0
    rw [show (some cf).bind CyclingFilters.limit = cf.limit from rfl, hl]
    rw [Option.getD_some, if_neg (by omega)]
  refine ⟨heq, ⟨(cyclingPipelineNoLimit lc (some cf) content).drop n.toNat,
    by rw [heq, List.take_append_drop]⟩, ?_⟩
  intro hsb hsd x hx y hy
  have hpair : (cyclingPipelineNoLimit lc (some cf) content).Pairwise
      (fun a b => b.duration ≤ a.duration) := by
    have hp : (libraryPipeline lc (some (baseFiltersOf (some cf))) content).Pairwise
        (fun a b => b.duration ≤ a.duration) := by
      unfold libraryPipeline sortContent
      rw [show (some (baseFiltersOf (some cf))).bind LibraryFilters.sortBy
          = (baseFiltersOf (some cf)).sortBy from rfl]
      rw [show (some (baseFiltersOf (some cf))).bind LibraryFilters.sortDirection
          = (baseFiltersOf (some cf)).sortDirection from rfl]
      rw [show (baseFiltersOf (some cf)).sortBy
          = (cf.sortBy.map CycSortKey.toSortKey) from rfl]
      rw [show (baseFiltersOf (some cf)).sortDirection = cf.sortDirection from rfl]
      rw [hsb, hsd]
      simp only [Option.map_some, Option.getD_some, CycSortKey.toSortKey]
      have trans : ∀ a b c : LibraryContent,
          sortLe lc SortKey.duration SortDir.desc a b →
          sortLe lc SortKey.duration SortDir.desc b c →
          sortLe lc SortKey.duration SortDir.desc a c := by
        intro a b c hab hbc
        simp only [sortLe, compareValue, dirMultiplier, decide_eq_true_eq] at *
        omega
      have total : ∀ a b : LibraryContent,
          sortLe lc SortKey.duration SortDir.desc a b
            || sortLe lc SortKey.duration SortDir.desc b a := by
        intro a b
        simp only [sortLe, compareValue, dirMultiplier, Bool.or_eq_true,
          decide_eq_true_eq]
        omega
      refine (List.sorted_mergeSort trans total _).imp ?_
      intro a b h
      simp only [sortLe, compareValue, dirMultiplier, decide_eq_true_eq] at h
      omega
    exact hp.sublist cyclingPost_sublist
  rw [← List.take_append_drop n.toNat
    (cyclingPipelineNoLimit lc (some cf) content)] at hpair
  have hcross := (List.pairwise_append.mp hpair).2.2
  rw [heq] at hx
  exact hcross x hx y hy

/-- Witness for C5: with a concrete limit of 1 on a concrete catalog,
the theorem applies and the returned list is the one-element prefix of
the unlimited pipeline. -/
theorem getCyclingWorkouts_limit_window_witness :
    cyclingPipeline localeCompareModel
        (some { sortBy := some CycSortKey.duration,
                sortDirection := some SortDir.desc, limit := some 1 })
        [wkA, wkB, wkC]
      = (cyclingPipelineNoLimit localeCompareModel
          (some { sortBy := some CycSortKey.duration,
                  sortDirection := some SortDir.desc, limit := some 1 })
          [wkA, wkB, wkC]).take (Int.toNat 1) :=
  (getCyclingWorkouts_limit_window localeCompareModel
    { sortBy := some CycSortKey.duration, sortDirection := some SortDir.desc,
      limit := some 1 } [wkA, wkB, wkC] 1 rfl (by decide)).1

/-- C10: when getCyclingWorkouts is called without a limit the result
is capped at the first 50 items of the filtered-and-sorted sequence
(the cap defaults to 50 rather than being absent) — both when a
filters object is passed without a limit and when no filters object is
passed at all — whereas getWorkoutLibrary applies no cap: its result
is a permutation of the full filter-stage output, so no item passing
the filters is dropped. -/
theorem getCyclingWorkouts_default_cap
    (lc : String → String → Int) (cf : CyclingFilters)
    (content : List LibraryContent) (hl : cf.limit = none) :
    (cyclingPipeline lc (some cf) content
      = (cyclingPipelineNoLimit lc (some cf) content).take 50)
    ∧ (cyclingPipeline lc none content
      = (cyclingPipelineNoLimit lc none content).take 50)
    ∧ (∀ f, (libraryPipeline lc f content).Perm
        (applyLibraryFilters f content)) := by
  refine ⟨?_, ?_, ?_⟩
  · unfold cyclingPipeline slice0
    rw [show (some cf).bind CyclingFilters.limit = cf.limit from rfl, hl]
    rw [show ((none : Option Int).getD 50) = 50 from rfl]
    rw [if_neg (by omega)]
    rfl
  · unfold cyclingPipeline slice0
    rw [show ((none : Option CyclingFilters).bind CyclingFilters.limit)
      = none from rfl]
    rw [show ((none : Option Int).getD 50) = 50 from rfl]
    rw [if_neg (by omega)]
    rfl
  · intro f
    unfold libraryPipeline sortContent
    exact List.mergeSort_perm _ _

/-- Witness for C10: with a concrete filters object carrying no limit,
the theorem applies and the result is the 50-item prefix of the
unlimited pipeline. -/
theorem getCyclingWorkouts_default_cap_witness :
    cyclingPipeline localeCompareModel
        (some { fourDpFocus := some FourDp.ftp }) [wkA, wkB, wkC, wkD]
      = (cyclingPipelineNoLimit localeCompareModel
          (some { fourDpFocus := some FourDp.ftp }) [wkA, wkB, wkC, wkD]).take 50 :=
  (getCyclingWorkouts_default_cap localeCompareModel
    { fourDpFocus := some FourDp.ftp } [wkA, wkB, wkC, wkD] rfl).1

/-- C6: every guarded operation invoked on a session without a (truthy)
token fails with notAuthenticated before issuing any network request
(the request log is empty); on a session holding a token no guarded
operation ever returns notAuthenticated, whatever the network answers;
and every successful authenticate leaves the session with a truthy
token, so after authenticate succeeds no guarded operation ever raises
notAuthenticated. -/
theorem guarded_ops_auth_guard {π : Type} (lc : String → String → Int)
    (s : Session) (net : Net π) (call : GuardedCall) :
    (tokenTruthy s.token = false →
      runGuarded lc s net call
        = (.error WahooError.notAuthenticated, ([] : List Request)))
    ∧ (tokenTruthy s.token = true →
      (runGuarded lc s net call).1 ≠ .error WahooError.notAuthenticated)
    ∧ (∀ username password s2 log,
        authenticateOp s net username password = (.ok (), s2, log) →
        tokenTruthy s2.token = true) := by
  refine ⟨?_, ?_, ?_⟩
  · intro h
    cases call <;>
      simp [runGuarded, tagResult, getCalendarWorkoutsOp, getWorkoutDetailsOp,
        getWorkoutLibraryOp, getCyclingWorkoutsOp, scheduleWorkoutOp,
        rescheduleWorkoutOp, removeWorkoutOp, getEnhancedRiderProfileOp,
        getFitnessTestHistoryOp, getFitnessTestDetailsOp,
        ensureAuthenticated, h, Except.map]
  · intro h
    cases call <;>
      simp only [runGuarded, tagResult, getCalendarWorkoutsOp,
        getWorkoutDetailsOp, getWorkoutLibraryOp, getCyclingWorkoutsOp,
        scheduleWorkoutOp, rescheduleWorkoutOp, removeWorkoutOp,
        getEnhancedRiderProfileOp, getFitnessTestHistoryOp,
        getFitnessTestDetailsOp, ensureAuthenticated, h, if_true] <;>
      (repeat' split) <;>
      simp [Except.map]
    all_goals
      rename_i x e log heq
      split at heq <;>
        first
        | (simp_all; done)
        | (simp only [Prod.mk.injEq] at heq
           obtain ⟨h1, h2⟩ := heq
           cases h1
           simp)
  · intro username password s2 log heq
    unfold authenticateOp at heq
    dsimp only at heq
    split at heq
    · split at heq
      · rename_i hne
        simp only [Prod.mk.injEq] at heq
        rw [← heq.2.1]
        simpa [tokenTruthy] using hne
      · simp at heq
    · simp at heq

/-- A concrete network oracle used only to instantiate witnesses: every
request succeeds with fixed payloads. -/
def netTrivial : Net Unit :=
  { ok := fun _ => true
    statusText := fun _ => "OK"
    auth := fun _ =>
      { status := "success"
        message := ""
        token := "tok"
        riderProfile := { nm := 700, ac := 400, map := 320, ftp := 260 } }
    planItems := fun _ => []
    workoutItems := fun _ => some [()]
    libraryContent := fun _ => [wkA]
    addAgendaResp := fun _ =>
      { status := "Success", message := none, agendaId := "ag1" }
    moveAgendaStatus := fun _ => "Success"
    deleteAgendaStatus := fun _ => "Success"
    mostRecentTest := fun _ => none
    activityPage := fun _ => ([], 0)
    activity := fun _ => () }

/-- Witness for C6: on the empty session, a concrete guarded call fails
with notAuthenticated and issues no request. -/
theorem guarded_ops_auth_guard_witness :
    runGuarded localeCompareModel { token := none, riderProfile := none }
        netTrivial GuardedCall.enhancedProfile
      = (.error WahooError.notAuthenticated, ([] : List Request)) :=
  (guarded_ops_auth_guard localeCompareModel
    { token := none, riderProfile := none } netTrivial
    GuardedCall.enhancedProfile).1 rfl

/-- C7: the session is written only by authenticate: a successful call
stores the returned token and rider profile together; a failed call
(authentication rejection or transport failure) leaves the session
exactly as it was; and every session state reachable in a process —
the empty initial state plus the effect of any sequence of authenticate
calls, the only writer — has the token set if and only if the rider
profile is set. -/
theorem session_write_discipline {π : Type} (s : Session) (net : Net π)
    (username password : String) :
    (∀ s2 log, authenticateOp s net username password = (.ok (), s2, log) →
      s2.token = some (net.auth (Request.login username password)).token
      ∧ s2.riderProfile
        = some (net.auth (Request.login username password)).riderProfile)
    ∧ (∀ e s2 log,
        authenticateOp s net username password = (.error e, s2, log) → s2 = s)
    ∧ (∀ t, Reachable t → (t.token.isSome ↔ t.riderProfile.isSome)) := by
  refine ⟨?_, ?_, ?_⟩
  · intro s2 log heq
    unfold authenticateOp at heq
    dsimp only at heq
    split at heq
    · split at heq
      · simp only [Prod.mk.injEq] at heq
        rw [← heq.2.1]
        exact ⟨rfl, rfl⟩
      · simp at heq
    · simp at heq
  · intro e s2 log heq
    unfold authenticateOp at heq
    dsimp only at heq
    split at heq
    · split at heq
      · simp at heq
      · simp only [Prod.mk.injEq] at heq
        exact heq.2.1.symm
    · simp only [Prod.mk.injEq] at heq
      exact heq.2.1.symm
  · intro t ht
    induction ht with
    | init => simp
    | auth s0 net0 u p h ih =>
      unfold authenticateOp
      dsimp only
      split
      · split
        · simp
        · simpa using ih
      · simpa using ih

/-- Witness for C7: a successful authenticate against the concrete
oracle stores the token and the profile together. -/
theorem session_write_discipline_witness :
    ({ token := some "tok",
       riderProfile := some { nm := 700, ac := 400, map := 320, ftp := 260 } }
        : Session).token
      = some (netTrivial.auth (Request.login "u" "p")).token
    ∧ ({ token := some "tok",
         riderProfile := some { nm := 700, ac := 400, map := 320, ftp := 260 } }
          : Session).riderProfile
      = some (netTrivial.auth (Request.login "u" "p")).riderProfile :=
  (session_write_discipline { token := none, riderProfile := none } netTrivial
    "u" "p").1
    { token := some "tok",
      riderProfile := some { nm := 700, ac := 400, map := 320, ftp := 260 } }
    [Request.login "u" "p"] rfl

/-- C8: scheduleWorkout on an authenticated session issues exactly one
AddUserPlanItem mutation whose timeZone variable is the caller value
defaulted client-side through `timeZone || UTC` (so an omitted timeZone
is sent as UTC), with rank fixed at 200; when the mutation reports the
Success sentinel the call returns the server-assigned agendaId, and on
any other status it fails with scheduleFailed carrying the upstream
message. -/
theorem scheduleWorkout_contract {π : Type} (s : Session) (net : Net π)
    (contentId date : String) (timeZone : Option String)
    (hs : tokenTruthy s.token = true) :
    ((scheduleWorkoutOp s net contentId date timeZone).2
      = [Request.addAgenda contentId date (jsStrOr timeZone "UTC") 200])
    ∧ (timeZone = none → jsStrOr timeZone "UTC" = "UTC")
    ∧ (net.ok (Request.addAgenda contentId date (jsStrOr timeZone "UTC") 200)
        = true →
      (net.addAgendaResp
        (Request.addAgenda contentId date (jsStrOr timeZone "UTC") 200)).status
        = "Success" →
      (scheduleWorkoutOp s net contentId date timeZone).1
        = .ok (net.addAgendaResp
            (Request.addAgenda contentId date (jsStrOr timeZone "UTC") 200)).agendaId)
    ∧ (net.ok (Request.addAgenda contentId date (jsStrOr timeZone "UTC") 200)
        = true →
      (net.addAgendaResp
        (Request.addAgenda contentId date (jsStrOr timeZone "UTC") 200)).status
        ≠ "Success" →
      (scheduleWorkoutOp s net contentId date timeZone).1
        = .error (.scheduleFailed (net.addAgendaResp
            (Request.addAgenda contentId date (jsStrOr timeZone "UTC") 200)).message)) := by
  refine ⟨?_, fun h => by rw [h]; rfl, ?_, ?_⟩
  · unfold scheduleWorkoutOp
    simp only [ensureAuthenticated, hs, if_true]
    split <;> (try split) <;> rfl
  · intro hok hst
    unfold scheduleWorkoutOp
    simp only [ensureAuthenticated, hs, if_true]
    rw [if_pos hok, if_pos hst]
  · intro hok hst
    unfold scheduleWorkoutOp
    simp only [ensureAuthenticated, hs, if_true]
    rw [if_pos hok, if_neg hst]

/-- Witness for C8: on an authenticated session, scheduling with no
timeZone issues the mutation with timeZone UTC. -/
theorem scheduleWorkout_contract_witness :
    (scheduleWorkoutOp
        { token := some "tok",
          riderProfile := some { nm := 700, ac := 400, map := 320, ftp := 260 } }
        netTrivial "abc" "2025-12-16" none).2
      = [Request.addAgenda "abc" "2025-12-16" (jsStrOr none "UTC") 200] :=
  (scheduleWorkout_contract
    { token := some "tok",
      riderProfile := some { nm := 700, ac := 400, map := 320, ftp := 260 } }
    netTrivial "abc" "2025-12-16" none (by decide)).1

/-- A raw workout-details payload that is valid except that the metrics
block is absent entirely. -/
def rawWDNoMetrics : RawWorkoutDetails :=
  { id := .val "w1"
    sortOrder := .missing
    sport := .val "Cycling"
    stampImage := .missing
    bannerImage := .missing
    bestFor := .null
    equipment := .null
    details := .val "details"
    shortDescription := .val "short"
    descriptions := .missing
    level := .null
    durationSeconds := .val 3600
    name := .val "The Chores"
    triggers := .missing
    featuredRaces := .null
    metrics := .missing
    brand := .null
    nonAppWorkout := .missing
    notes := .null
    tags := .missing }

/-- A raw library-content payload that is valid except that the metrics
block is absent entirely. -/
def rawLCNoMetrics : RawLibraryContent :=
  { id := .val "c1"
    name := .val "The Chores"
    mediaType := .val "video"
    channel := .val "Sufferfest"
    workoutType := .val "Cycling"
    category := .val "Speed"
    level := .val "Intermediate"
    duration := .val 1800
    workoutId := .val "w1"
    videoId := .missing
    bannerImage := .missing
    posterImage := .missing
    defaultImage := .missing
    intensity := .missing
    tags := .missing
    descriptions := .missing
    metrics := .missing }

/-- Counterexample for C9: a record whose metrics block is absent
entirely is NOT normalized to the zero-valued 4DP shape by either
schema: WorkoutDetailsSchema (where metrics is required) rejects the
record outright, and LibraryContentSchema (where metrics is optional
without a transform) leaves the field absent, so downstream code does
observe a missing metrics block. -/
theorem absent_metrics_not_normalized :
    parseWorkoutDetails rawWDNoMetrics = none
    ∧ (parseLibraryContent rawLCNoMetrics).map LibraryContentParsed.metrics
      = some none := by
  constructor
  · decide
  · decide

/-- C9 (amended): the normalization defaults hold field by field where
the schemas define them: on WorkoutDetailsSchema a level that is absent
or null normalizes to the empty string, an absent triggers field
normalizes to the empty string, and a metrics block that is PRESENT
but missing ratings (or tss, or intensityFactor) has exactly the
missing sub-fields defaulted (ratings to the all-zero 4DP shape, tss
and intensityFactor to 0). A metrics block absent entirely is not
defaulted by either schema: WorkoutDetailsSchema rejects the record
(metrics is required) and LibraryContentSchema keeps the field absent,
leaving the substitution of 0 to the use sites in the query engine. -/
theorem normalization_defaults :
    (∀ w out, parseWorkoutDetails w = some out →
      ((w.level = RawField.missing ∨ w.level = RawField.null) →
        out.level = "")
      ∧ (w.triggers = RawField.missing → out.triggers = "")
      ∧ (∀ mm, w.metrics = RawField.val mm →
          (mm.ratings = RawField.missing →
            out.metrics.ratings = { nm := 0, ac := 0, map := 0, ftp := 0 })
          ∧ (mm.tss = RawField.missing → out.metrics.tss = 0)
          ∧ (mm.intensityFactor = RawField.missing →
            out.metrics.intensityFactor = 0)))
    ∧ (∀ w out, parseLibraryContent w = some out →
        w.metrics = RawField.missing → out.metrics = none) := by
  constructor
  · intro w out h
    unfold parseWorkoutDetails at h
    split at h
    · rename_i e1 e2 e3 e4 e5 e6 e7 e8 e9 e10 e11 e12 e13 e14 e15 e16 e17
        e18 e19 e20
      injection h with h2
      subst h2
      refine ⟨?_, ?_, ?_⟩
      · intro hl
        rcases hl with hl | hl <;>
          (rw [hl] at e11
           simp only [nullOptField, Option.some.injEq] at e11
           subst e11
           rfl)
      · intro ht
        rw [ht] at e14
        simp only [optField, optParse, Option.some.injEq] at e14
        subst e14
        rfl
      · intro mm hm
        rw [hm] at e16
        simp only [parseMetricsField] at e16
        unfold parseMetrics at e16
        simp only [Option.bind_eq_some] at e16
        obtain ⟨iF, hif, tss, hts, rat, hrat, hm2⟩ := e16
        injection hm2 with hm3
        subst hm3
        refine ⟨?_, ?_, ?_⟩
        · intro hmr
          rw [hmr] at hrat
          simp only [optParse, Option.some.injEq] at hrat
          subst hrat
          rfl
        · intro hmt
          rw [hmt] at hts
          simp only [optField, optParse, Option.some.injEq] at hts
          subst hts
          rfl
        · intro hmi
          rw [hmi] at hif
          simp only [optField, optParse, Option.some.injEq] at hif
          subst hif
          rfl
    · simp at h
  · intro w out h
    unfold parseLibraryContent at h
    split at h
    · rename_i e1 e2 e3 e4 e5 e6 e7 e8 e9 e10 e11 e12 e13 e14 e15 e16 e17
      injection h with h2
      subst h2
      intro hm
      rw [hm] at e17
      simp only [optParse, Option.some.injEq] at e17
      subst e17
      rfl
    · simp at h

/-- A raw workout-details payload with null level, absent triggers, and
a present metrics block missing tss and ratings. -/
def rawWDDefaults : RawWorkoutDetails :=
  { id := .val "w2"
    sortOrder := .missing
    sport := .val "Cycling"
    stampImage := .missing
    bannerImage := .missing
    bestFor := .missing
    equipment := .missing
    details := .val "details"
    shortDescription := .val "short"
    descriptions := .missing
    level := .null
    durationSeconds := .val 3600
    name := .val "Nine Hammers"
    triggers := .missing
    featuredRaces := .missing
    metrics := .val { intensityFactor := .val 80, tss := .missing, ratings := .missing }
    brand := .missing
    nonAppWorkout := .missing
    notes := .missing
    tags := .missing }

/-- The normalized record WorkoutDetailsSchema produces for
rawWDDefaults. -/
def wdOutDefaults : WorkoutDetailsNorm :=
  { id := "w2"
    sortOrder := none
    sport := "Cycling"
    stampImage := none
    bannerImage := none
    bestFor := none
    equipment := none
    details := "details"
    shortDescription := "short"
    descriptions := none
    level := ""
    durationSeconds := 3600
    name := "Nine Hammers"
    triggers := ""
    featuredRaces := none
    metrics :=
      { intensityFactor := 80
        tss := 0
        ratings := { nm := 0, ac := 0, map := 0, ftp := 0 } }
    brand := none
    nonAppWorkout := none
    notes := none
    tags := none }

/-- Witness for C9 (amended): the concrete payload with null level,
absent triggers, and a metrics block missing ratings and tss validates
and every defaulting conclusion of the theorem holds for it. -/
theorem normalization_defaults_witness :
    ((rawWDDefaults.level = RawField.missing
        ∨ rawWDDefaults.level = RawField.null) → wdOutDefaults.level = "")
    ∧ (rawWDDefaults.triggers = RawField.missing → wdOutDefaults.triggers = "")
    ∧ (∀ mm, rawWDDefaults.metrics = RawField.val mm →
        (mm.ratings = RawField.missing →
          wdOutDefaults.metrics.ratings = { nm := 0, ac := 0, map := 0, ftp := 0 })
        ∧ (mm.tss = RawField.missing → wdOutDefaults.metrics.tss = 0)
        ∧ (mm.intensityFactor = RawField.missing →
          wdOutDefaults.metrics.intensityFactor = 0)) :=
  normalization_defaults.1 rawWDDefaults wdOutDefaults (by decide)
